import Mathlib

/-!
Verification of the lighter-go transaction signing SDK.

This file embeds, in Lean 4, the parts of the repository needed to settle the
frozen claims: the `L2UpdateMarginTxInfo` transaction variant (its `Validate`
and `Hash` routines from the txtypes package), the memo handling of the
`signTransfer` binding, the leg-count check and leg construction of the
`signCreateGroupedOrders` binding, and the client registry manipulated by
`createClient` / `switchAPIKey` in `sharedlib/sharedlib_syscall.go`.

Machine integers are modelled as `Int` (for Go `int64`) and `Nat` (for Go
`uint8` / `uint32`); none of the embedded comparisons can overflow, so no
modular reduction is needed for them.
-/

namespace LighterGo

/-- Modelled from the spec: the numeric protocol constants of the txtypes
package (`MinAccountIndex`, `MaxAccountIndex`, `MaxApiKeyIndex`,
`MinMarketIndex`, `MaxMarketIndex`, `MinNonce`, `MaxTimestamp`, and the
transaction-type tag `TxTypeL2UpdateMargin`). Their declaration site is not
under `src/`; the spec only says every numeric field has a closed range
enforced by `Validate`, so the constants are carried abstractly as a
parameter record and every theorem quantifies over them. -/
structure TxConsts where
  MinAccountIndex : Int
  MaxAccountIndex : Int
  MaxApiKeyIndex : Nat
  MinMarketIndex : Nat
  MaxMarketIndex : Nat
  MinNonce : Int
  MaxTimestamp : Int
  TxTypeL2UpdateMargin : Nat
deriving Repr, DecidableEq

/-- The validation errors returned by `L2UpdateMarginTxInfo.Validate`
(`ErrFromAccountIndexTooLow`, ... in the txtypes package); the Go `error`
values become constructors, the Go `nil` becomes `Option.none`. -/
inductive TxError where
  | ErrFromAccountIndexTooLow
  | ErrFromAccountIndexTooHigh
  | ErrApiKeyIndexTooHigh
  | ErrMarketIndexTooLow
  | ErrMarketIndexTooHigh
  | ErrUSDCAmountIsZero
  | ErrNonceTooLow
  | ErrExpiredAtInvalid
deriving Repr, DecidableEq

/-- The `L2UpdateMarginTxInfo` struct of the txtypes package.
`Sig` and `SignedHash` play no role in the embedded routines and are
omitted. -/
structure L2UpdateMarginTxInfo where
  AccountIndex : Int
  ApiKeyIndex : Nat
  MarketIndex : Nat
  USDCAmount : Int
  Direction : Nat
  ExpiredAt : Int
  Nonce : Int
deriving Repr, DecidableEq

/-- Translation of `L2UpdateMarginTxInfo.Validate`, check by check from the
Go if-chain; `c` holds the protocol constants the Go code references as package
globals. -/
def L2UpdateMarginTxInfo.Validate (c : TxConsts) (txInfo : L2UpdateMarginTxInfo) :
    Option TxError :=
  if txInfo.AccountIndex ≤ c.MinAccountIndex then
    some TxError.ErrFromAccountIndexTooLow
  else if txInfo.AccountIndex > c.MaxAccountIndex then
    some TxError.ErrFromAccountIndexTooHigh
  else if txInfo.ApiKeyIndex > c.MaxApiKeyIndex then
    some TxError.ErrApiKeyIndexTooHigh
  else if txInfo.MarketIndex < c.MinMarketIndex then
    some TxError.ErrMarketIndexTooLow
  else if txInfo.MarketIndex > c.MaxMarketIndex then
    some TxError.ErrMarketIndexTooHigh
  else if txInfo.USDCAmount = 0 then
    some TxError.ErrUSDCAmountIsZero
  else if txInfo.Nonce < c.MinNonce then
    some TxError.ErrNonceTooLow
  else if txInfo.ExpiredAt < 0 ∨ txInfo.ExpiredAt > c.MaxTimestamp then
    some TxError.ErrExpiredAtInvalid
  else
    none

/-- Spec-side definition (for the refinement claim about validation order):
the checks of the update-margin variant as a list of (does-this-check-fail,
error) pairs, in the fixed declared order of the spec. -/
def specValidateChecks (c : TxConsts) (txInfo : L2UpdateMarginTxInfo) :
    List (Bool × TxError) :=
  [ (decide (txInfo.AccountIndex ≤ c.MinAccountIndex), TxError.ErrFromAccountIndexTooLow),
    (decide (txInfo.AccountIndex > c.MaxAccountIndex), TxError.ErrFromAccountIndexTooHigh),
    (decide (txInfo.ApiKeyIndex > c.MaxApiKeyIndex), TxError.ErrApiKeyIndexTooHigh),
    (decide (txInfo.MarketIndex < c.MinMarketIndex), TxError.ErrMarketIndexTooLow),
    (decide (txInfo.MarketIndex > c.MaxMarketIndex), TxError.ErrMarketIndexTooHigh),
    (decide (txInfo.USDCAmount = 0), TxError.ErrUSDCAmountIsZero),
    (decide (txInfo.Nonce < c.MinNonce), TxError.ErrNonceTooLow),
    (decide (txInfo.ExpiredAt < 0 ∨ txInfo.ExpiredAt > c.MaxTimestamp), TxError.ErrExpiredAtInvalid) ]

/-- Spec-side definition: return the error of the first failing check, or
`none` when every check passes. -/
def specFirstFailing : List (Bool × TxError) → Option TxError
  | [] => none
  | (b, e) :: rest => if b then some e else specFirstFailing rest

/-- The Goldilocks prime 2^64 - 2^32 + 1 of the external poseidon_crypto
field package `g`. -/
def goldilocksOrder : Nat := 18446744069414584321

namespace g

/-- A Goldilocks field element, modelled as its canonical representative. -/
abbrev Element : Type := Nat

/-- Embedding of `g.FromUint32`: a `uint32` is below the field order and maps directly. -/
def FromUint32 (v : Nat) : Element := v % goldilocksOrder

/-- Embedding of `g.FromInt64`: sign-preserving reduction of an `int64` into the field
(negative values wrap to `order - |v|`). -/
def FromInt64 (v : Int) : Element := (v % (goldilocksOrder : Int)).toNat

end g

/-- The ordered field-element sequence (`elems`) that
`L2UpdateMarginTxInfo.Hash` builds and hands to the hasher, translated
append by append from the Go body. -/
def L2UpdateMarginTxInfo.hashFieldSequence (c : TxConsts)
    (txInfo : L2UpdateMarginTxInfo) (lighterChainId : Nat) : List g.Element :=
  let elems : List g.Element := []
  let elems := elems ++ [g.FromUint32 lighterChainId]
  let elems := elems ++ [g.FromUint32 c.TxTypeL2UpdateMargin]
  let elems := elems ++ [g.FromInt64 txInfo.Nonce]
  let elems := elems ++ [g.FromInt64 txInfo.ExpiredAt]
  let elems := elems ++ [g.FromInt64 txInfo.AccountIndex]
  let elems := elems ++ [g.FromUint32 txInfo.ApiKeyIndex]
  let elems := elems ++ [g.FromUint32 txInfo.MarketIndex]
  let elems := elems ++ [g.FromUint32 txInfo.Direction]
  let usdcAmountField := g.FromInt64 txInfo.USDCAmount
  let elems := elems ++ [usdcAmountField]
  elems

/-- Embedding of `L2UpdateMarginTxInfo.Hash`. The external
`p2.HashToQuinticExtension(...).ToLittleEndianBytes()` pipeline is passed in
as the collaborator `hashToBytes`; `extra` is the variadic `...g.Element`
parameter of the Go signature. -/
def L2UpdateMarginTxInfo.Hash (hashToBytes : List g.Element → List Nat)
    (c : TxConsts) (txInfo : L2UpdateMarginTxInfo) (lighterChainId : Nat)
    (extra : List g.Element) : List Nat :=
  hashToBytes (txInfo.hashFieldSequence c lighterChainId)

/-- Value of a single hexadecimal digit, as accepted by `encoding/hex`
(both cases), or `none` for a non-hex character. -/
def hexDigitVal (ch : Char) : Option Nat :=
  if '0' ≤ ch ∧ ch ≤ '9' then some (ch.toNat - '0'.toNat)
  else if 'a' ≤ ch ∧ ch ≤ 'f' then some (ch.toNat - 'a'.toNat + 10)
  else if 'A' ≤ ch ∧ ch ≤ 'F' then some (ch.toNat - 'A'.toNat + 10)
  else none

/-- Embedding of `hexutil.Decode` on the digit part: decode pairs of hex characters into
bytes; fails on an odd-length string or a non-hex character. -/
def hexDecodeChars : List Char → Option (List Nat)
  | [] => some []
  | [_] => none
  | c1 :: c2 :: rest => do
      let hi ← hexDigitVal c1
      let lo ← hexDigitVal c2
      let tail ← hexDecodeChars rest
      pure ((16 * hi + lo) :: tail)

/-- The `types.TransferTxReq` record built by `signTransfer` (the fields the
binding copies from its arguments; `Memo` is the 32-byte array, modelled as
a list of byte values). -/
structure TransferTxReq where
  ToAccountIndex : Int
  USDCAmount : Int
  Fee : Int
  Memo : List Nat
deriving Repr, DecidableEq

/-- The memo handling and `TransferTxReq` construction of `signTransfer` in
`sharedlib_syscall.go`: start from 32 zero bytes; an empty memo string keeps
them; otherwise the string must be 64 characters, hex-decode, re-check the
byte count, and `copy` the bytes over the zero array. Returns the Go error
strings on the failure paths. -/
def signTransferBuild (toAccountIndex usdcAmount fee : Int) (memoStr : String) :
    Except String TransferTxReq := do
  let memo : List Nat := List.replicate 32 0
  let memo ← (do
    if memoStr ≠ "" then
      if memoStr.length ≠ 64 then
        throw ("memo expected to be 64 hex characters (32 bytes) or empty string")
      match hexDecodeChars memoStr.data with
      | none => throw ("invalid hex memo")
      | some memoBytes =>
          if memoBytes.length ≠ 32 then
            throw ("memo must be exactly 32 bytes")
          pure ((memoBytes ++ memo.drop memoBytes.length).take 32)
    else
      pure memo)
  pure { ToAccountIndex := toAccountIndex, USDCAmount := usdcAmount,
         Fee := fee, Memo := memo }

/-- One entry of the order list JSON parsed by `signCreateGroupedOrders`
(note: it has no client-order-index member). -/
structure OrderRequest where
  MarketIndex : Nat
  BaseAmount : Int
  Price : Nat
  IsAsk : Nat
  «Type» : Nat
  TimeInForce : Nat
  ReduceOnly : Nat
  TriggerPrice : Nat
  OrderExpiry : Int
deriving Repr, DecidableEq

/-- The `types.CreateOrderTxReq` record built per leg. -/
structure CreateOrderTxReq where
  MarketIndex : Nat
  ClientOrderIndex : Int
  BaseAmount : Int
  Price : Nat
  IsAsk : Nat
  «Type» : Nat
  TimeInForce : Nat
  ReduceOnly : Nat
  TriggerPrice : Nat
  OrderExpiry : Int
deriving Repr, DecidableEq

/-- The `types.CreateGroupedOrdersTxReq` record built by the binding. -/
structure CreateGroupedOrdersTxReq where
  GroupingType : Nat
  Orders : List CreateOrderTxReq
deriving Repr, DecidableEq

/-- One iteration of the leg-building loop of `signCreateGroupedOrders`:
`defaultExpiry` stands for the wall-clock `time.Now().Add(28 days)` value
substituted when the request carries the `-1` sentinel; `ClientOrderIndex`
is hard-coded to 0. -/
def buildGroupedOrder (defaultExpiry : Int) (orderReq : OrderRequest) :
    CreateOrderTxReq :=
  { MarketIndex := orderReq.MarketIndex,
    ClientOrderIndex := 0,
    BaseAmount := orderReq.BaseAmount,
    Price := orderReq.Price,
    IsAsk := orderReq.IsAsk,
    «Type» := orderReq.«Type»,
    TimeInForce := orderReq.TimeInForce,
    ReduceOnly := orderReq.ReduceOnly,
    TriggerPrice := orderReq.TriggerPrice,
    OrderExpiry := if orderReq.OrderExpiry = -1 then defaultExpiry
                   else orderReq.OrderExpiry }

/-- The order-count check and transaction construction of
`signCreateGroupedOrders`, from the parsed order list onward: fewer than 2
or more than 3 legs is rejected with the Go error string before any leg is
built; otherwise the legs and the grouped request are constructed. -/
def signCreateGroupedOrdersBuild (defaultExpiry : Int) (groupingType : Nat)
    (orderRequests : List OrderRequest) : Except String CreateGroupedOrdersTxReq :=
  if orderRequests.length < 2 ∨ orderRequests.length > 3 then
    throw ("grouped orders must contain 2 or 3 orders")
  else
    pure { GroupingType := groupingType,
           Orders := orderRequests.map (buildGroupedOrder defaultExpiry) }

/-- The two package-level globals of `sharedlib_syscall.go` that the client
lifecycle touches: `backupTxClients` (the map from api-key index to
registered client, a nil or empty map modelled as the everywhere-`none`
function) and `txClient` (the active client pointer, `none` for Go `nil`).
Clients themselves are opaque to this logic, hence the type parameter. -/
structure SignerState (α : Type) where
  backupTxClients : Nat → Option α
  txClient : Option α

/-- The state before any call: no client created, no registration. -/
def initialSignerState (α : Type) : SignerState α :=
  { backupTxClients := fun _ => none, txClient := none }

/-- Embedding of `switchAPIKey`, from the map lookup onward: returns the error string and
leaves the state untouched when no client is registered for `apiKeyIndex`;
otherwise installs the registered client as the active one. The first
component is the `Error` field of the JSON response (`none` = success). -/
def switchAPIKey {α : Type} (s : SignerState α) (apiKeyIndex : Nat) :
    Option String × SignerState α :=
  match s.backupTxClients apiKeyIndex with
  | none => (some ("no client initialized for api key"), s)
  | some c => (none, { s with txClient := some c })

/-- The state change of a successful `createClient` call: the freshly built
`TxClient` (here the opaque `newClient`) is assigned to the active pointer
and then registered in the map under `apiKeyIndex`, mirroring the two Go
assignments. -/
def createClientOk {α : Type} (s : SignerState α) (apiKeyIndex : Nat)
    (newClient : α) : SignerState α :=
  { backupTxClients := fun j =>
      if j = apiKeyIndex then some newClient else s.backupTxClients j,
    txClient := some newClient }

/-- A successful client-lifecycle call: a `createClient` that built its
client, or a `switchAPIKey`. -/
inductive ClientOp (α : Type) where
  | create (apiKeyIndex : Nat) (newClient : α)
  | switch (apiKeyIndex : Nat)

/-- Apply one lifecycle call to the global state (a failed switch leaves the
state unchanged, as in `switchAPIKey`). -/
def stepClient {α : Type} (s : SignerState α) : ClientOp α → SignerState α
  | ClientOp.create apiKeyIndex newClient => createClientOk s apiKeyIndex newClient
  | ClientOp.switch apiKeyIndex => (switchAPIKey s apiKeyIndex).2

/-- Run a sequence of lifecycle calls from a starting state. -/
def runClientOps {α : Type} (s : SignerState α) (ops : List (ClientOp α)) :
    SignerState α :=
  ops.foldl stepClient s

/-- The registry invariant: whenever an active client is installed, it is
one of the clients stored in `backupTxClients`. -/
def ActiveRegistered {α : Type} (s : SignerState α) : Prop :=
  ∀ c : α, s.txClient = some c → ∃ i : Nat, s.backupTxClients i = some c

/-- C1: for every update-margin transaction and every chain id, the field
sequence hashed by `Hash` begins with the two domain-separator elements
`[chainId, transaction-type tag]` and is followed by the fields of the variant in
exactly the order Nonce, ExpiredAt, AccountIndex, ApiKeyIndex, MarketIndex,
Direction, USDCAmount, and by nothing else. -/
theorem l2UpdateMargin_hash_sequence_order
    (hashToBytes : List g.Element → List Nat) (c : TxConsts)
    (txInfo : L2UpdateMarginTxInfo) (lighterChainId : Nat)
    (extra : List g.Element) :
    txInfo.hashFieldSequence c lighterChainId =
      [g.FromUint32 lighterChainId, g.FromUint32 c.TxTypeL2UpdateMargin] ++
      [g.FromInt64 txInfo.Nonce, g.FromInt64 txInfo.ExpiredAt,
       g.FromInt64 txInfo.AccountIndex, g.FromUint32 txInfo.ApiKeyIndex,
       g.FromUint32 txInfo.MarketIndex, g.FromUint32 txInfo.Direction,
       g.FromInt64 txInfo.USDCAmount] ∧
    txInfo.Hash hashToBytes c lighterChainId extra =
      hashToBytes (txInfo.hashFieldSequence c lighterChainId) :=
  ⟨rfl, rfl⟩

/-- C8: the variadic `extra` parameter of `Hash` has no influence on the
digest: for every list of extra field elements the result equals the digest
computed with no extra elements. -/
theorem l2UpdateMargin_hash_ignores_extra
    (hashToBytes : List g.Element → List Nat) (c : TxConsts)
    (txInfo : L2UpdateMarginTxInfo) (lighterChainId : Nat)
    (extra : List g.Element) :
    txInfo.Hash hashToBytes c lighterChainId extra =
      txInfo.Hash hashToBytes c lighterChainId [] :=
  rfl

/-- C2: `Validate` returns `none` exactly when all range checks pass, and
otherwise returns the error of the first failing check in the fixed
declared order (AccountIndex too low, AccountIndex too high, ApiKeyIndex
too high, MarketIndex too low, MarketIndex too high, USDCAmount zero, Nonce
too low, ExpiredAt out of range). -/
theorem l2UpdateMargin_validate_first_failing (c : TxConsts)
    (txInfo : L2UpdateMarginTxInfo) :
    txInfo.Validate c = specFirstFailing (specValidateChecks c txInfo) ∧
    (txInfo.Validate c = none ↔
      (specValidateChecks c txInfo).all (fun p => !p.1) = true) := by
  constructor
  · simp only [L2UpdateMarginTxInfo.Validate, specValidateChecks,
      specFirstFailing, decide_eq_true_eq]
  · simp only [L2UpdateMarginTxInfo.Validate, specValidateChecks,
      List.all_cons, List.all_nil, Bool.and_eq_true, Bool.not_eq_true',
      decide_eq_false_iff_not, and_true]
    split_ifs <;> simp_all

/-- C3: with all other fields within bounds (and a non-degenerate account
range), `Validate` rejects `AccountIndex = MinAccountIndex` with the
account-index-too-low error and accepts `AccountIndex = MinAccountIndex + 1`. -/
theorem l2UpdateMargin_accountIndex_boundary (c : TxConsts)
    (txInfo : L2UpdateMarginTxInfo)
    (hRange : c.MinAccountIndex + 1 ≤ c.MaxAccountIndex)
    (hApi : txInfo.ApiKeyIndex ≤ c.MaxApiKeyIndex)
    (hMkLo : c.MinMarketIndex ≤ txInfo.MarketIndex)
    (hMkHi : txInfo.MarketIndex ≤ c.MaxMarketIndex)
    (hUsdc : txInfo.USDCAmount ≠ 0)
    (hNonce : c.MinNonce ≤ txInfo.Nonce)
    (hExpLo : 0 ≤ txInfo.ExpiredAt)
    (hExpHi : txInfo.ExpiredAt ≤ c.MaxTimestamp) :
    ({ txInfo with AccountIndex := c.MinAccountIndex }).Validate c =
        some TxError.ErrFromAccountIndexTooLow ∧
    ({ txInfo with AccountIndex := c.MinAccountIndex + 1 }).Validate c = none := by
  constructor
  · simp [L2UpdateMarginTxInfo.Validate]
  · simp only [L2UpdateMarginTxInfo.Validate]
    split_ifs <;> simp_all <;> omega

/-- Witness for `l2UpdateMargin_accountIndex_boundary` at concrete
constants and a concrete transaction. -/
theorem l2UpdateMargin_accountIndex_boundary_witness :
    ({ AccountIndex := 0, ApiKeyIndex := 1, MarketIndex := 1, USDCAmount := 5,
       Direction := 0, ExpiredAt := 10, Nonce := 1 } :
        L2UpdateMarginTxInfo).Validate
      { MinAccountIndex := 0, MaxAccountIndex := 100, MaxApiKeyIndex := 254,
        MinMarketIndex := 0, MaxMarketIndex := 200, MinNonce := 0,
        MaxTimestamp := 1000, TxTypeL2UpdateMargin := 20 } =
      some TxError.ErrFromAccountIndexTooLow ∧
    ({ AccountIndex := 1, ApiKeyIndex := 1, MarketIndex := 1, USDCAmount := 5,
       Direction := 0, ExpiredAt := 10, Nonce := 1 } :
        L2UpdateMarginTxInfo).Validate
      { MinAccountIndex := 0, MaxAccountIndex := 100, MaxApiKeyIndex := 254,
        MinMarketIndex := 0, MaxMarketIndex := 200, MinNonce := 0,
        MaxTimestamp := 1000, TxTypeL2UpdateMargin := 20 } = none :=
  l2UpdateMargin_accountIndex_boundary
    { MinAccountIndex := 0, MaxAccountIndex := 100, MaxApiKeyIndex := 254,
      MinMarketIndex := 0, MaxMarketIndex := 200, MinNonce := 0,
      MaxTimestamp := 1000, TxTypeL2UpdateMargin := 20 }
    { AccountIndex := 0, ApiKeyIndex := 1, MarketIndex := 1, USDCAmount := 5,
      Direction := 0, ExpiredAt := 10, Nonce := 1 }
    (by decide) (by decide) (by decide) (by decide) (by decide) (by decide)
    (by decide) (by decide)

/-- C4: once the account-index, api-key-index and market-index checks pass,
`Validate` returns the zero-amount error exactly when `USDCAmount = 0`; any
non-zero amount (positive or negative) passes this check. -/
theorem l2UpdateMargin_usdc_zero_check (c : TxConsts)
    (txInfo : L2UpdateMarginTxInfo)
    (hAccLo : c.MinAccountIndex < txInfo.AccountIndex)
    (hAccHi : txInfo.AccountIndex ≤ c.MaxAccountIndex)
    (hApi : txInfo.ApiKeyIndex ≤ c.MaxApiKeyIndex)
    (hMkLo : c.MinMarketIndex ≤ txInfo.MarketIndex)
    (hMkHi : txInfo.MarketIndex ≤ c.MaxMarketIndex) :
    txInfo.Validate c = some TxError.ErrUSDCAmountIsZero ↔
      txInfo.USDCAmount = 0 := by
  simp only [L2UpdateMarginTxInfo.Validate]
  split_ifs <;> simp_all <;> omega

/-- Witness for `l2UpdateMargin_usdc_zero_check`: a transaction with in-range
indices and zero amount is rejected with the zero-amount error. -/
theorem l2UpdateMargin_usdc_zero_check_witness :
    ({ AccountIndex := 1, ApiKeyIndex := 1, MarketIndex := 1, USDCAmount := 0,
       Direction := 0, ExpiredAt := 10, Nonce := 1 } :
        L2UpdateMarginTxInfo).Validate
      { MinAccountIndex := 0, MaxAccountIndex := 100, MaxApiKeyIndex := 254,
        MinMarketIndex := 0, MaxMarketIndex := 200, MinNonce := 0,
        MaxTimestamp := 1000, TxTypeL2UpdateMargin := 20 } =
      some TxError.ErrUSDCAmountIsZero :=
  (l2UpdateMargin_usdc_zero_check
    { MinAccountIndex := 0, MaxAccountIndex := 100, MaxApiKeyIndex := 254,
      MinMarketIndex := 0, MaxMarketIndex := 200, MinNonce := 0,
      MaxTimestamp := 1000, TxTypeL2UpdateMargin := 20 }
    { AccountIndex := 1, ApiKeyIndex := 1, MarketIndex := 1, USDCAmount := 0,
      Direction := 0, ExpiredAt := 10, Nonce := 1 }
    (by decide) (by decide) (by decide) (by decide) (by decide)).mpr rfl

/-- A successful hex decode consumes exactly two characters per byte. -/
theorem hexDecodeChars_length : ∀ (l : List Char) (bs : List Nat),
    hexDecodeChars l = some bs → l.length = 2 * bs.length
  | [], bs, h => by
      simp only [hexDecodeChars, Option.some_inj] at h
      subst h
      rfl
  | [_], bs, h => by
      simp [hexDecodeChars] at h
  | c1 :: c2 :: rest, bs, h => by
      have h' : (hexDigitVal c1).bind (fun hi => (hexDigitVal c2).bind (fun lo =>
          (hexDecodeChars rest).bind (fun tail =>
            some ((16 * hi + lo) :: tail)))) = some bs := h
      simp only [Option.bind_eq_some, Option.some_inj] at h'
      obtain ⟨hi, _, lo, _, tail, hTail, hCons⟩ := h'
      have ih := hexDecodeChars_length rest tail hTail
      subst hCons
      simp only [List.length_cons]
      omega

/-- C5: `signTransfer` memo handling — an empty memo string yields a memo of
32 zero bytes; a non-empty memo string whose length is not 64 is rejected
before any transaction is constructed; a 64-character memo string of valid
hex has its 32 decoded bytes copied verbatim into the `Memo` field. -/
theorem signTransfer_memo_spec (toAccountIndex usdcAmount fee : Int)
    (memoStr : String) :
    (memoStr = "" →
      signTransferBuild toAccountIndex usdcAmount fee memoStr =
        Except.ok { ToAccountIndex := toAccountIndex, USDCAmount := usdcAmount,
                    Fee := fee, Memo := List.replicate 32 0 }) ∧
    (memoStr ≠ "" → memoStr.length ≠ 64 →
      ∃ e, signTransferBuild toAccountIndex usdcAmount fee memoStr =
            Except.error e) ∧
    (∀ memoBytes : List Nat, memoStr.length = 64 →
      hexDecodeChars memoStr.data = some memoBytes →
      signTransferBuild toAccountIndex usdcAmount fee memoStr =
        Except.ok { ToAccountIndex := toAccountIndex, USDCAmount := usdcAmount,
                    Fee := fee, Memo := memoBytes }) := by
  refine ⟨?_, ?_, ?_⟩
  · intro h
    subst h
    rfl
  · intro h1 h2
    refine ⟨"memo expected to be 64 hex characters (32 bytes) or empty string", ?_⟩
    simp only [signTransferBuild]
    rw [if_pos h1, if_pos h2]
    rfl
  · intro memoBytes hLen hDec
    have hne : memoStr ≠ "" := by
      intro h
      subst h
      simp at hLen
    have hdata : memoStr.length = memoStr.data.length := rfl
    have hb32 : memoBytes.length = 32 := by
      have h2 := hexDecodeChars_length memoStr.data memoBytes hDec
      omega
    have hcopy : ((memoBytes ++ (List.replicate 32 0).drop 32).take 32)
        = memoBytes := by
      simpa using List.take_of_length_le (le_of_eq hb32)
    simp only [signTransferBuild]
    rw [if_pos hne, if_neg (fun h => h hLen), hDec]
    simp [hb32, hcopy]
    rw [List.take_of_length_le (le_of_eq hb32)]
    rfl

/-- Witness for `signTransfer_memo_spec` at concrete memo strings: empty,
too short, and 64 zero hex characters. -/
theorem signTransfer_memo_spec_witness :
    signTransferBuild 1 2 3 "" =
      Except.ok { ToAccountIndex := 1, USDCAmount := 2, Fee := 3,
                  Memo := List.replicate 32 0 } ∧
    (∃ e, signTransferBuild 1 2 3 "short" = Except.error e) ∧
    signTransferBuild 1 2 3
        "0000000000000000000000000000000000000000000000000000000000000000" =
      Except.ok { ToAccountIndex := 1, USDCAmount := 2, Fee := 3,
                  Memo := List.replicate 32 0 } :=
  ⟨(signTransfer_memo_spec 1 2 3 "").1 rfl,
   (signTransfer_memo_spec 1 2 3 "short").2.1 (by decide) (by decide),
   (signTransfer_memo_spec 1 2 3
      "0000000000000000000000000000000000000000000000000000000000000000").2.2
     (List.replicate 32 0) (by decide) (by decide)⟩

/-- C6: `signCreateGroupedOrders` returns an error exactly when the parsed
order list has fewer than 2 or more than 3 legs; with 2 or 3 legs it
proceeds to build the grouped transaction from the legs. -/
theorem groupedOrders_leg_count (defaultExpiry : Int) (groupingType : Nat)
    (orderRequests : List OrderRequest) :
    ((∃ e, signCreateGroupedOrdersBuild defaultExpiry groupingType orderRequests =
        Except.error e) ↔
      (orderRequests.length < 2 ∨ orderRequests.length > 3)) ∧
    (2 ≤ orderRequests.length → orderRequests.length ≤ 3 →
      signCreateGroupedOrdersBuild defaultExpiry groupingType orderRequests =
        Except.ok { GroupingType := groupingType,
                    Orders := orderRequests.map (buildGroupedOrder defaultExpiry) }) := by
  constructor
  · constructor
    · rintro ⟨e, he⟩
      by_contra hlen
      rw [signCreateGroupedOrdersBuild, if_neg hlen] at he
      exact Except.noConfusion he
    · intro hlen
      exact ⟨_, by rw [signCreateGroupedOrdersBuild, if_pos hlen]; rfl⟩
  · intro h2 h3
    rw [signCreateGroupedOrdersBuild, if_neg (by omega)]
    rfl

/-- A sample parsed order-list entry, used to instantiate witnesses. -/
def sampleOrderRequest : OrderRequest :=
  { MarketIndex := 0, BaseAmount := 401, Price := 210000, IsAsk := 1,
    «Type» := 4, TimeInForce := 0, ReduceOnly := 1, TriggerPrice := 210000,
    OrderExpiry := 5 }

/-- Witness for `groupedOrders_leg_count`: a two-leg list is accepted. -/
theorem groupedOrders_leg_count_witness :
    signCreateGroupedOrdersBuild 9 1 [sampleOrderRequest, sampleOrderRequest] =
      Except.ok { GroupingType := 1,
                  Orders := [sampleOrderRequest, sampleOrderRequest].map
                    (buildGroupedOrder 9) } :=
  (groupedOrders_leg_count 9 1 [sampleOrderRequest, sampleOrderRequest]).2
    (by decide) (by decide)

/-- C9: every order leg constructed by `signCreateGroupedOrders` has
`ClientOrderIndex = 0`, whatever the input order list. -/
theorem groupedOrders_clientOrderIndex_zero (defaultExpiry : Int)
    (groupingType : Nat) (orderRequests : List OrderRequest)
    (tx : CreateGroupedOrdersTxReq)
    (h : signCreateGroupedOrdersBuild defaultExpiry groupingType orderRequests =
      Except.ok tx) :
    ∀ o ∈ tx.Orders, o.ClientOrderIndex = 0 := by
  rw [signCreateGroupedOrdersBuild] at h
  by_cases hlen : orderRequests.length < 2 ∨ orderRequests.length > 3
  · rw [if_pos hlen] at h
    exact Except.noConfusion h
  · rw [if_neg hlen] at h
    have htx : tx = { GroupingType := groupingType,
                      Orders := orderRequests.map (buildGroupedOrder defaultExpiry) } :=
      (Except.ok.injEq _ _).mp h.symm
    subst htx
    intro o ho
    obtain ⟨r, _, hr⟩ := List.mem_map.mp ho
    rw [← hr]
    rfl

/-- Witness for `groupedOrders_clientOrderIndex_zero` at a concrete two-leg
build. -/
theorem groupedOrders_clientOrderIndex_zero_witness :
    (buildGroupedOrder 9 sampleOrderRequest).ClientOrderIndex = 0 :=
  groupedOrders_clientOrderIndex_zero 9 1 [sampleOrderRequest, sampleOrderRequest]
    { GroupingType := 1,
      Orders := [sampleOrderRequest, sampleOrderRequest].map (buildGroupedOrder 9) }
    rfl (buildGroupedOrder 9 sampleOrderRequest) (by simp)

/-- C7: `switchAPIKey` fails with the not-registered error and leaves the
state (in particular the active client pointer) unchanged when no client is
registered for the index; when one is registered it succeeds, the active
client becomes exactly the registered client, and the registry is
untouched. -/
theorem switchAPIKey_spec {α : Type} (s : SignerState α) (apiKeyIndex : Nat) :
    (s.backupTxClients apiKeyIndex = none →
      (switchAPIKey s apiKeyIndex).1 = some ("no client initialized for api key") ∧
      (switchAPIKey s apiKeyIndex).2 = s) ∧
    (∀ c : α, s.backupTxClients apiKeyIndex = some c →
      (switchAPIKey s apiKeyIndex).1 = none ∧
      (switchAPIKey s apiKeyIndex).2.txClient = some c ∧
      (switchAPIKey s apiKeyIndex).2.backupTxClients = s.backupTxClients) := by
  constructor
  · intro h
    rw [switchAPIKey, h]
    exact ⟨rfl, rfl⟩
  · intro c h
    rw [switchAPIKey, h]
    exact ⟨rfl, rfl, rfl⟩

/-- A concrete one-entry registry used to instantiate witnesses: client 7
is registered at api-key index 0, no client is active. -/
def sampleSignerState : SignerState Nat :=
  { backupTxClients := fun j => if j = 0 then some 7 else none,
    txClient := none }

/-- Witness for `switchAPIKey_spec` on `sampleSignerState`: index 1 is
unregistered, index 0 holds client 7. -/
theorem switchAPIKey_spec_witness :
    ((switchAPIKey sampleSignerState 1).1 =
        some ("no client initialized for api key") ∧
      (switchAPIKey sampleSignerState 1).2 = sampleSignerState) ∧
    ((switchAPIKey sampleSignerState 0).1 = none ∧
      (switchAPIKey sampleSignerState 0).2.txClient = some 7) :=
  ⟨(switchAPIKey_spec sampleSignerState 1).1 rfl,
   ((switchAPIKey_spec sampleSignerState 0).2 7 rfl).1,
   ((switchAPIKey_spec sampleSignerState 0).2 7 rfl).2.1⟩

/-- The empty state keeps the invariant vacuously. -/
theorem initial_activeRegistered (α : Type) :
    ActiveRegistered (initialSignerState α) := by
  intro c hc
  exact Option.noConfusion hc

/-- One lifecycle call preserves the registry invariant: `createClient`
registers the very client it activates, and `switchAPIKey` only activates a
client obtained from the registry. -/
theorem stepClient_preserves {α : Type} (s : SignerState α) (op : ClientOp α)
    (hs : ActiveRegistered s) : ActiveRegistered (stepClient s op) := by
  cases op with
  | create apiKeyIndex newClient =>
      intro c hc
      simp only [stepClient, createClientOk, Option.some_inj] at hc
      refine ⟨apiKeyIndex, ?_⟩
      simp [stepClient, createClientOk, hc]
  | switch apiKeyIndex =>
      intro c hc
      cases hl : s.backupTxClients apiKeyIndex with
      | none =>
          simp only [stepClient, switchAPIKey, hl] at hc ⊢
          exact hs c hc
      | some d =>
          simp only [stepClient, switchAPIKey, hl, Option.some_inj] at hc ⊢
          exact ⟨apiKeyIndex, by rw [hl, hc]⟩

/-- Any run of lifecycle calls preserves the registry invariant. -/
theorem runClientOps_preserves {α : Type} (ops : List (ClientOp α))
    (s : SignerState α) (hs : ActiveRegistered s) :
    ActiveRegistered (runClientOps s ops) := by
  induction ops generalizing s with
  | nil => exact hs
  | cons op rest ih => exact ih (stepClient s op) (stepClient_preserves s op hs)

/-- C10: after any sequence of successful `createClient` and `switchAPIKey`
calls starting from the initial state, the active client is one of the
clients stored in the registry map. -/
theorem activeClient_always_registered {α : Type} (ops : List (ClientOp α))
    (c : α) (h : (runClientOps (initialSignerState α) ops).txClient = some c) :
    ∃ i : Nat, (runClientOps (initialSignerState α) ops).backupTxClients i = some c :=
  runClientOps_preserves ops (initialSignerState α) (initial_activeRegistered α) c h

/-- Witness for `activeClient_always_registered`: after one `createClient`
call the active client 42 is registered. -/
theorem activeClient_always_registered_witness :
    ∃ i : Nat, (runClientOps (initialSignerState Nat)
      [ClientOp.create 0 42]).backupTxClients i = some 42 :=
  activeClient_always_registered [ClientOp.create 0 42] 42 rfl

end LighterGo
